import Mathlib

/-!
A shallow embedding of the `hyphen04/OPi5` GPIO/PWM library
(`src/GPIO.py` and `src/pin_mappings.py`) together with theorems about it.

External sysfs and event-subsystem calls are modelled by a `World` that
carries a script of outcomes (one entry consumed per call; an exhausted
script means success) and records the ordered trace of calls and warnings
the library issues.  Python dictionaries are modelled as association lists
with dict-style lookup/insert/delete; Python numbers in the PWM arithmetic
are modelled as rationals with `pyRound` for Python's round-half-to-even.
-/

namespace OPiGPIO

/-- Modelled from the spec: direction constants `IN` / `OUT` from `OPi.constants`
(the module is not part of this repository); only their distinctness matters. -/
inductive Direction
  | input
  | output
deriving DecidableEq, Repr

/-- Modelled from the spec: numbering-scheme constants `BCM, BOARD, SUNXI, CUSTOM`
from `OPi.constants`; only their distinctness matters. -/
inductive Mode
  | bcm
  | board
  | sunxi
  | custom
deriving DecidableEq, Repr

/-- Modelled from the spec: edge-trigger constants `RISING, FALLING, BOTH`. -/
inductive Trigger
  | rising
  | falling
  | both
deriving DecidableEq, Repr

/-- A Python value as passed through `output`: an integer (`HIGH`/`LOW` are the
ints 1/0) or a tuple of such integers.  `GPIO.output` forwards its `state`
argument verbatim, so the embedding must be able to carry a tuple through. -/
inductive PyVal
  | int (n : ℤ)
  | tuple (vs : List ℤ)
deriving DecidableEq, Repr

/-- `OPi.constants.HIGH` (the int 1). -/
def HIGH : PyVal := .int 1

/-- `OPi.constants.LOW` (the int 0). -/
def LOW : PyVal := .int 0

/-- One call to an external collaborator (`OPi.sysfs` Pin File I/O or the
`OPi.event` edge subsystem), with its arguments. -/
inductive SysCall
  | exportPin (pin : ℤ)
  | unexportPin (pin : ℤ)
  | setDirection (pin : ℤ) (dir : Direction)
  | writeValue (pin : ℤ) (v : PyVal)
  | readValue (pin : ℤ)
  | eventCleanup (pin : ℤ)
  | addEdgeDetect (pin : ℤ) (t : Trigger)
  | addEdgeCallback (pin : ℤ)
  | pwmExport (chip pin : ℤ)
  | pwmUnexport (chip pin : ℤ)
  | pwmPolarity (chip pin : ℤ) (invert : Bool)
  | pwmEnable (chip pin : ℤ)
  | pwmDisable (chip pin : ℤ)
  | pwmFrequency (chip pin : ℤ) (freq : ℚ)
  | pwmPeriod (chip pin : ℤ) (period : ℤ)
  | pwmDutyCycle (chip pin : ℤ) (duty : ℤ)
  | pwmDutyCyclePercent (chip pin : ℤ) (pct : ℚ)
deriving DecidableEq, Repr

/-- The advisory warnings the library can emit via `warnings.warn`. -/
inductive WarnKind
  | pullUpDown
  | channelInUse (ch : ℤ)
  | bouncetime
  | pwmPinInUse (pin : ℤ)
deriving DecidableEq, Repr

/-- An observable event: an external call issued, or a warning emitted. -/
inductive Ev
  | call (c : SysCall)
  | warn (w : WarnKind)
deriving DecidableEq, Repr

/-- The errors (Python exceptions) the library can raise.  I/O errors carry
the call that raised them and the `errno` (16 = `EBUSY`, device or resource
busy). -/
inductive Err
  | runtimeNotConfigured (ch : ℤ)
  | runtimeWrongDirection (ch : ℤ) (configured : Direction)
  | runtimeModeNotSet
  | runtimeAlreadyConfigured (ch : ℤ)
  | runtimeEdgeAlreadyEnabled (pin : ℤ)
  | runtimeNoWatcher (pin : ℤ)
  | assertionError
  | keyError (ch : ℤ)
  | ioError (c : SysCall) (errno : ℤ)
deriving DecidableEq, Repr

/-- The outcome of one external call: success (with the value returned, for
calls that read one) or an `OSError` with a given errno. -/
inductive SysRes
  | ok (b : Bool)
  | err (errno : ℤ)
deriving DecidableEq, Repr

/-- The external environment and the observation log.  `script` scripts the
outcome of each successive external call: `.err errno` makes the call raise
an `OSError` with that errno, `.ok b` makes it succeed (returning `b` where a
value is read).  An exhausted script means every further call succeeds. -/
structure World where
  script : List SysRes
  trace : List Ev
deriving DecidableEq, Repr

/-- Issue one external call: consume the next scripted outcome and record the
call in the trace (the call is recorded whether or not it raises). -/
def runSys (c : SysCall) (w : World) : SysRes × World :=
  match w.script with
  | [] => (.ok false, ⟨[], w.trace ++ [.call c]⟩)
  | r :: rest => (r, ⟨rest, w.trace ++ [.call c]⟩)

/-- Emit a `warnings.warn` advisory (never raises, changes no library state). -/
def emitWarn (k : WarnKind) (w : World) : World :=
  ⟨w.script, w.trace ++ [.warn k]⟩

/-- Python-dict lookup on an association list. -/
def dictFind {β : Type} (l : List (ℤ × β)) (k : ℤ) : Option β :=
  match l with
  | [] => none
  | (a, b) :: rest => if k = a then some b else dictFind rest k

/-- Python-dict `del` on an association list (keys are unique in a dict, so
removing every pair with the key is the dict semantics). -/
def dictDel {β : Type} (l : List (ℤ × β)) (k : ℤ) : List (ℤ × β) :=
  l.filter (fun p => p.1 ≠ k)

/-- `round(q, 0)` in Python: round half to even (banker's rounding). -/
def pyRound (q : ℚ) : ℤ :=
  if q - (⌊q⌋ : ℚ) < 1/2 then ⌊q⌋
  else if 1/2 < q - (⌊q⌋ : ℚ) then ⌊q⌋ + 1
  else if ⌊q⌋ % 2 = 0 then ⌊q⌋ else ⌊q⌋ + 1

/-- The module-global state of `GPIO.py` (`_gpio_warnings`, `_mode`,
`_exports`) together with the CUSTOM slot of `pin_mappings._pin_map` and the
set of kernel pins with an armed Edge Watcher (the `OPi.event` registry,
modelled from the spec — `OPi/event.py` is not part of this repository). -/
structure GpioState where
  mode : Option Mode
  gpioWarnings : Bool
  exports : List (ℤ × Direction)
  customMap : List (ℤ × ℤ)
  watchers : List ℤ
deriving DecidableEq, Repr

/-- The interpreter-start state of the module globals. -/
def initState : GpioState := ⟨none, true, [], [], []⟩

/-- `pin_mappings._pin_map[BOARD]`: physical pin → actual GPIO pin, in source
order. -/
def boardPinMap : List (ℤ × ℤ) :=
  [(3, 47), (5, 46), (7, 54), (8, 131), (10, 132), (12, 29), (11, 138),
   (13, 139), (15, 28), (16, 59), (18, 58), (19, 49), (21, 48), (22, 92),
   (24, 52), (23, 50), (26, 35)]

/-- `pin_mappings.get_gpio_pin`: `assert mode in [BOARD]` (an
`AssertionError` for every other scheme — including CUSTOM, whose table is
kept in `_pin_map` but never reached — and for an unset mode), then the BOARD
table lookup (`KeyError` when the channel is absent). -/
def get_gpio_pin (_customMap : List (ℤ × ℤ)) (mode : Option Mode) (channel : ℤ) :
    Except Err ℤ :=
  if mode = some Mode.board then
    match dictFind boardPinMap channel with
    | some pin => .ok pin
    | none => .error (.keyError channel)
  else .error .assertionError

/-- The argument to `GPIO.setmode`: a built-in scheme constant, or a
dict-like custom mapping (anything with a `__getitem__`). -/
inductive ModeArg
  | builtin (m : Mode)
  | customDict (m : List (ℤ × ℤ))
deriving DecidableEq, Repr

/-- `GPIO.setmode`: a dict-like argument is stored via
`set_custom_pin_mappings` and replaced by the CUSTOM constant; the assert
then passes for all four constants and the global `_mode` is set. -/
def setmode (st : GpioState) (arg : ModeArg) : GpioState :=
  match arg with
  | .customDict m => { st with customMap := m, mode := some Mode.custom }
  | .builtin m => { st with mode := some m }

/-- `GPIO.setwarnings`. -/
def setwarnings (st : GpioState) (enabled : Bool) : GpioState :=
  { st with gpioWarnings := enabled }

/-- `GPIO._check_configured`: `RuntimeError` if the channel has no Export
Record; a further `RuntimeError` if a direction is demanded and differs from
the recorded one. -/
def _check_configured (st : GpioState) (channel : ℤ) (direction : Option Direction) :
    Except Err Unit :=
  match dictFind st.exports channel with
  | none => .error (.runtimeNotConfigured channel)
  | some configured =>
    match direction with
    | none => .ok ()
    | some d =>
      if d = configured then .ok () else .error (.runtimeWrongDirection channel configured)

/-- The `try: sysfs.export(pin) / except` block of `GPIO.setup`: an errno-16
failure warns (when warnings are on), force-unexports and re-exports exactly
once (a failure of either of those propagates); any other failure propagates
unchanged. -/
def setupExport (warningsOn : Bool) (w : World) (channel pin : ℤ) :
    Except Err Unit × World :=
  match runSys (.exportPin pin) w with
  | (.ok _, w1) => (.ok (), w1)
  | (.err errno, w1) =>
    if errno = 16 then
      let w2 := if warningsOn then emitWarn (.channelInUse channel) w1 else w1
      match runSys (.unexportPin pin) w2 with
      | (.err e2, w3) => (.error (.ioError (.unexportPin pin) e2), w3)
      | (.ok _, w3) =>
        match runSys (.exportPin pin) w3 with
        | (.err e3, w4) => (.error (.ioError (.exportPin pin) e3), w4)
        | (.ok _, w4) => (.ok (), w4)
    else (.error (.ioError (.exportPin pin) errno), w1)

/-- The scalar branch of `GPIO.setup` (after the mode check, the pull-up/down
warning and the list dispatch): already-configured guard, translation, the
export block, set direction, record the Export Record, optional initial value
write for outputs. -/
def setupScalar (st : GpioState) (w : World) (channel : ℤ) (direction : Direction)
    (initial : Option PyVal) : Except Err Unit × GpioState × World :=
  if (dictFind st.exports channel).isSome then
    (.error (.runtimeAlreadyConfigured channel), st, w)
  else
    match get_gpio_pin st.customMap st.mode channel with
    | .error e => (.error e, st, w)
    | .ok pin =>
      match setupExport st.gpioWarnings w channel pin with
      | (.error e, w') => (.error e, st, w')
      | (.ok _, w') =>
        match runSys (.setDirection pin direction) w' with
        | (.err e5, w5) => (.error (.ioError (.setDirection pin direction) e5), st, w5)
        | (.ok _, w5) =>
          let st2 := { st with exports := st.exports ++ [(channel, direction)] }
          match direction, initial with
          | .output, some v =>
            match runSys (.writeValue pin v) w5 with
            | (.err e6, w6) => (.error (.ioError (.writeValue pin v) e6), st2, w6)
            | (.ok _, w6) => (.ok (), st2, w6)
          | _, _ => (.ok (), st2, w5)

/-- The list branch of `GPIO.setup`: `for ch in channel: setup(ch, direction,
initial)` — the recursive call drops `pull_up_down` and re-passes the
unchanged, already-checked mode, so only the scalar branch remains. -/
def setupList (st : GpioState) (w : World) (channels : List ℤ) (direction : Direction)
    (initial : Option PyVal) : Except Err Unit × GpioState × World :=
  match channels with
  | [] => (.ok (), st, w)
  | ch :: rest =>
    match setupScalar st w ch direction initial with
    | (.ok _, st', w') => setupList st' w' rest direction initial
    | (.error e, st', w') => (.error e, st', w')

/-- A channel argument: a single channel or a list of channels. -/
inductive ChannelArg
  | single (ch : ℤ)
  | chanList (chs : List ℤ)
deriving DecidableEq, Repr

/-- `GPIO.setup`: mode check, advisory pull-up/down warning, then the list or
scalar branch. -/
def setup (st : GpioState) (w : World) (channel : ChannelArg) (direction : Direction)
    (initial : Option PyVal) (pull_up_down : Option PyVal) :
    Except Err Unit × GpioState × World :=
  if st.mode = none then (.error .runtimeModeNotSet, st, w)
  else
    let w1 := if pull_up_down.isSome then
        (if st.gpioWarnings then emitWarn .pullUpDown w else w)
      else w
    match channel with
    | .single ch => setupScalar st w1 ch direction initial
    | .chanList chs => setupList st w1 chs direction initial

/-- `GPIO.input`: guard with no direction demanded (the source comments "Can
read from a pin configured for output"), translate, read the value. -/
def input (st : GpioState) (w : World) (channel : ℤ) : Except Err Bool × World :=
  match _check_configured st channel none with
  | .error e => (.error e, w)
  | .ok _ =>
    match get_gpio_pin st.customMap st.mode channel with
    | .error e => (.error e, w)
    | .ok pin =>
      match runSys (.readValue pin) w with
      | (.err errno, w') => (.error (.ioError (.readValue pin) errno), w')
      | (.ok v, w') => (.ok v, w')

/-- The scalar branch of `GPIO.output`: guard demanding direction OUT,
translate, write the forwarded state. -/
def outputScalar (st : GpioState) (w : World) (channel : ℤ) (state : PyVal) :
    Except Err Unit × World :=
  match _check_configured st channel (some .output) with
  | .error e => (.error e, w)
  | .ok _ =>
    match get_gpio_pin st.customMap st.mode channel with
    | .error e => (.error e, w)
    | .ok pin =>
      match runSys (.writeValue pin state) w with
      | (.err errno, w') => (.error (.ioError (.writeValue pin state) errno), w')
      | (.ok _, w') => (.ok (), w')

/-- The list branch of `GPIO.output`: `for ch in channel: output(ch, state)` —
the whole `state` argument is forwarded unchanged to every channel. -/
def outputList (st : GpioState) (w : World) (channels : List ℤ) (state : PyVal) :
    Except Err Unit × World :=
  match channels with
  | [] => (.ok (), w)
  | ch :: rest =>
    match outputScalar st w ch state with
    | (.ok _, w') => outputList st w' rest state
    | (.error e, w') => (.error e, w')

/-- `GPIO.output`. -/
def output (st : GpioState) (w : World) (channel : ChannelArg) (state : PyVal) :
    Except Err Unit × World :=
  match channel with
  | .single ch => outputScalar st w ch state
  | .chanList chs => outputList st w chs state

/-- One-channel `GPIO.cleanup`: guard, translate, `event.cleanup(pin)`
(modelled from the spec, `OPi/event.py` being outside this repository:
removes the pin's Edge Watcher if any, else a no-op, releasing the OS edge
configuration — traced, never raising), unexport, delete the Export Record. -/
def cleanupScalar (st : GpioState) (w : World) (channel : ℤ) :
    Except Err Unit × GpioState × World :=
  match _check_configured st channel none with
  | .error e => (.error e, st, w)
  | .ok _ =>
    match get_gpio_pin st.customMap st.mode channel with
    | .error e => (.error e, st, w)
    | .ok pin =>
      let st1 := { st with watchers := st.watchers.erase pin }
      let w1 : World := ⟨w.script, w.trace ++ [.call (.eventCleanup pin)]⟩
      match runSys (.unexportPin pin) w1 with
      | (.err errno, w2) => (.error (.ioError (.unexportPin pin) errno), st1, w2)
      | (.ok _, w2) => (.ok (), { st1 with exports := dictDel st1.exports channel }, w2)

/-- The list branch of `GPIO.cleanup`. -/
def cleanupList (st : GpioState) (w : World) (channels : List ℤ) :
    Except Err Unit × GpioState × World :=
  match channels with
  | [] => (.ok (), st, w)
  | ch :: rest =>
    match cleanupScalar st w ch with
    | (.ok _, st', w') => cleanupList st' w' rest
    | (.error e, st', w') => (.error e, st', w')

/-- `GPIO.cleanup`: with no argument, tears down the snapshot
`list(_exports.keys())` of all configured channels, then re-enables warnings
(`setwarnings(True)`) and clears `_mode`. -/
def cleanup (st : GpioState) (w : World) (channel : Option ChannelArg) :
    Except Err Unit × GpioState × World :=
  match channel with
  | none =>
    match cleanupList st w (st.exports.map Prod.fst) with
    | (.ok _, st', w') => (.ok (), { setwarnings st' true with mode := none }, w')
    | (.error e, st', w') => (.error e, st', w')
  | some (.single ch) => cleanupScalar st w ch
  | some (.chanList chs) => cleanupList st w chs

/-- `GPIO.add_event_detect`: guard (must be configured as input), the inert
`bouncetime` advisory warning, translate, then `event.add_edge_detect`
(modelled from the spec, `OPi/event.py` being outside this repository: fails
if an Edge Watcher already exists for the pin, else arms one and attaches the
pin to the background multiplexer — traced). -/
def add_event_detect (st : GpioState) (w : World) (channel : ℤ) (trigger : Trigger)
    (bouncetime : Option ℤ) : Except Err Unit × GpioState × World :=
  match _check_configured st channel (some .input) with
  | .error e => (.error e, st, w)
  | .ok _ =>
    let w1 := if bouncetime.isSome then
        (if st.gpioWarnings then emitWarn .bouncetime w else w)
      else w
    match get_gpio_pin st.customMap st.mode channel with
    | .error e => (.error e, st, w1)
    | .ok pin =>
      let w2 : World := ⟨w1.script, w1.trace ++ [.call (.addEdgeDetect pin trigger)]⟩
      if pin ∈ st.watchers then (.error (.runtimeEdgeAlreadyEnabled pin), st, w2)
      else (.ok (), { st with watchers := st.watchers ++ [pin] }, w2)

/-- `GPIO.add_event_callback`: guard, the inert `bouncetime` advisory
warning, translate, then `event.add_edge_callback` (modelled from the spec:
fails with `NoWatcher` when the pin has no armed Edge Watcher, else appends
the callback — traced). -/
def add_event_callback (st : GpioState) (w : World) (channel : ℤ)
    (bouncetime : Option ℤ) : Except Err Unit × GpioState × World :=
  match _check_configured st channel (some .input) with
  | .error e => (.error e, st, w)
  | .ok _ =>
    let w1 := if bouncetime.isSome then
        (if st.gpioWarnings then emitWarn .bouncetime w else w)
      else w
    match get_gpio_pin st.customMap st.mode channel with
    | .error e => (.error e, st, w1)
    | .ok pin =>
      let w2 : World := ⟨w1.script, w1.trace ++ [.call (.addEdgeCallback pin)]⟩
      if pin ∈ st.watchers then (.ok (), st, w2)
      else (.error (.runtimeNoWatcher pin), st, w2)

/-- The attribute state of a `GPIO.PWM` object (`self.chip`, `self.pin`,
`self.frequency`, `self.duty_cycle_percent`, `self.invert_polarity`).
Python floats are modelled as rationals. -/
structure PwmState where
  chip : ℤ
  pin : ℤ
  frequency : ℚ
  duty_cycle_percent : ℚ
  invert_polarity : Bool
deriving DecidableEq, Repr

/-- `GPIO.PWM.__init__`: sets the attributes, then inside a `try` block
exports the chip/pin pair, sets polarity (the source's if/else issues
`PWM_Polarity(chip, pin, invert=True)` when `invert_polarity is True` and
`invert=False` otherwise, i.e. the flag's value), enables output and sets the
frequency.  An `OSError` with errno 16 from any of those calls is answered by
an unconditional warning (the source does not consult the module global
`_gpio_warnings` here, so the parameter is unused), a forced unexport and one
re-export; any other `OSError` propagates. -/
def PWM_init (_gpio_warnings : Bool) (w : World) (chip pin : ℤ)
    (frequency duty_cycle_percent : ℚ) (invert_polarity : Bool) :
    Except Err Unit × PwmState × World :=
  let self : PwmState := ⟨chip, pin, frequency, duty_cycle_percent, invert_polarity⟩
  let tryRes : Option (SysCall × ℤ) × World :=
    match runSys (.pwmExport chip pin) w with
    | (.err e, w1) => (some (.pwmExport chip pin, e), w1)
    | (.ok _, w1) =>
      match runSys (.pwmPolarity chip pin invert_polarity) w1 with
      | (.err e, w2) => (some (.pwmPolarity chip pin invert_polarity, e), w2)
      | (.ok _, w2) =>
        match runSys (.pwmEnable chip pin) w2 with
        | (.err e, w3) => (some (.pwmEnable chip pin, e), w3)
        | (.ok _, w3) =>
          match runSys (.pwmFrequency chip pin frequency) w3 with
          | (.err e, w4) => (some (.pwmFrequency chip pin frequency, e), w4)
          | (.ok _, w4) => (none, w4)
  match tryRes with
  | (none, w') => (.ok (), self, w')
  | (some (c, errno), w') =>
    if errno = 16 then
      match runSys (.pwmUnexport chip pin) (emitWarn (.pwmPinInUse pin) w') with
      | (.err e2, w3) => (.error (.ioError (.pwmUnexport chip pin) e2), self, w3)
      | (.ok _, w3) =>
        match runSys (.pwmExport chip pin) w3 with
        | (.err e3, w4) => (.error (.ioError (.pwmExport chip pin) e3), self, w4)
        | (.ok _, w4) => (.ok (), self, w4)
    else (.error (.ioError c errno), self, w')

/-- `GPIO.PWM.change_frequency`: converts the new and current frequencies to
periods in nanoseconds (`pyRound` models Python's `int(round(_, 0))`; the
source's float arithmetic is modelled exactly on rationals, and a zero
frequency — a `ZeroDivisionError` in Python — is outside the modelled
domain), then writes period before duty cycle when the period is increasing
and duty cycle before period otherwise, finally updating `self.frequency`. -/
def change_frequency (self : PwmState) (w : World) (new_frequency : ℚ) :
    Except Err Unit × PwmState × World :=
  let pwm_period : ℤ := pyRound (1 / new_frequency * 1000000000)
  let duty_cycle : ℤ := pyRound (self.duty_cycle_percent / 100 * (pwm_period : ℚ))
  let old_pwm_period : ℤ := pyRound (1 / self.frequency * 1000000000)
  if pwm_period > old_pwm_period then
    match runSys (.pwmPeriod self.chip self.pin pwm_period) w with
    | (.err e, w1) => (.error (.ioError (.pwmPeriod self.chip self.pin pwm_period) e), self, w1)
    | (.ok _, w1) =>
      match runSys (.pwmDutyCycle self.chip self.pin duty_cycle) w1 with
      | (.err e, w2) => (.error (.ioError (.pwmDutyCycle self.chip self.pin duty_cycle) e), self, w2)
      | (.ok _, w2) => (.ok (), { self with frequency := new_frequency }, w2)
  else
    match runSys (.pwmDutyCycle self.chip self.pin duty_cycle) w with
    | (.err e, w1) => (.error (.ioError (.pwmDutyCycle self.chip self.pin duty_cycle) e), self, w1)
    | (.ok _, w1) =>
      match runSys (.pwmPeriod self.chip self.pin pwm_period) w1 with
      | (.err e, w2) => (.error (.ioError (.pwmPeriod self.chip self.pin pwm_period) e), self, w2)
      | (.ok _, w2) => (.ok (), { self with frequency := new_frequency }, w2)

/-- `GPIO.PWM.pwm_polarity`: disables output, writes the negation of the
stored `self.invert_polarity` flag as the new polarity, re-enables output.
The source never updates the `self.invert_polarity` attribute here, so the
returned state is unchanged. -/
def pwm_polarity (self : PwmState) (w : World) : Except Err Unit × PwmState × World :=
  match runSys (.pwmDisable self.chip self.pin) w with
  | (.err e, w1) => (.error (.ioError (.pwmDisable self.chip self.pin) e), self, w1)
  | (.ok _, w1) =>
    match runSys (.pwmPolarity self.chip self.pin (!self.invert_polarity)) w1 with
    | (.err e, w2) =>
      (.error (.ioError (.pwmPolarity self.chip self.pin (!self.invert_polarity)) e), self, w2)
    | (.ok _, w2) =>
      match runSys (.pwmEnable self.chip self.pin) w2 with
      | (.err e, w3) => (.error (.ioError (.pwmEnable self.chip self.pin) e), self, w3)
      | (.ok _, w3) => (.ok (), self, w3)

theorem le_pyRound (q : ℚ) : ⌊q⌋ ≤ pyRound q := by
  unfold pyRound
  split
  · omega
  split
  · omega
  split <;> omega

theorem pyRound_le (q : ℚ) : pyRound q ≤ ⌊q⌋ + 1 := by
  unfold pyRound
  split
  · omega
  split
  · omega
  split <;> omega

theorem pyRound_of_lt {q : ℚ} (h : q - (⌊q⌋ : ℚ) < 1/2) : pyRound q = ⌊q⌋ := by
  unfold pyRound
  rw [if_pos h]

theorem pyRound_of_gt {q : ℚ} (h : 1/2 < q - (⌊q⌋ : ℚ)) : pyRound q = ⌊q⌋ + 1 := by
  unfold pyRound
  rw [if_neg (lt_asymm h), if_pos h]

theorem pyRound_mono {a b : ℚ} (h : a ≤ b) : pyRound a ≤ pyRound b := by
  rcases lt_or_eq_of_le (Int.floor_mono h : ⌊a⌋ ≤ ⌊b⌋) with hf | hf
  · calc pyRound a ≤ ⌊a⌋ + 1 := pyRound_le a
      _ ≤ ⌊b⌋ := by omega
      _ ≤ pyRound b := le_pyRound b
  · have hfa : a - (⌊a⌋ : ℚ) ≤ b - (⌊b⌋ : ℚ) := by
      rw [hf]
      exact sub_le_sub_right h _
    rcases lt_trichotomy (a - (⌊a⌋ : ℚ)) (1/2) with h1 | h1 | h1
    · rw [pyRound_of_lt h1, hf]
      exact le_pyRound b
    · rcases lt_or_eq_of_le hfa with h2 | h2
      · have h3 : (1:ℚ)/2 < b - (⌊b⌋ : ℚ) := by linarith
        rw [pyRound_of_gt h3]
        calc pyRound a ≤ ⌊a⌋ + 1 := pyRound_le a
          _ = ⌊b⌋ + 1 := by rw [hf]
      · have hab : a = b := by
          have h4 : (⌊a⌋ : ℚ) = (⌊b⌋ : ℚ) := by exact_mod_cast congrArg Int.cast hf
          linarith
        rw [hab]
    · have h3 : (1:ℚ)/2 < b - (⌊b⌋ : ℚ) := lt_of_lt_of_le h1 hfa
      rw [pyRound_of_gt h1, pyRound_of_gt h3, hf]

/-- C1 (amended): for a PWM object with current frequency `f_old > 0`, calling
`change_frequency(f_new)` with `f_new > f_old` (increasing frequency, shorter
period) issues the duty-cycle write before the period write; with
`f_new < f_old` (decreasing frequency) it issues the period write before the
duty-cycle write whenever the rounded periods actually differ.  (This is the
converse order of the one the claim states; it is the order that preserves
period ≥ duty cycle at every step.) -/
theorem C1_change_frequency_write_order (self : PwmState) (w : World) (new_frequency : ℚ)
    (hscript : w.script = []) :
    (0 < self.frequency → self.frequency < new_frequency →
      (change_frequency self w new_frequency).2.2.trace = w.trace ++
        [.call (.pwmDutyCycle self.chip self.pin
            (pyRound (self.duty_cycle_percent / 100 *
              ((pyRound (1 / new_frequency * 1000000000) : ℤ) : ℚ)))),
         .call (.pwmPeriod self.chip self.pin (pyRound (1 / new_frequency * 1000000000)))]) ∧
    (0 < new_frequency → new_frequency < self.frequency →
      pyRound (1 / new_frequency * 1000000000) ≠ pyRound (1 / self.frequency * 1000000000) →
      (change_frequency self w new_frequency).2.2.trace = w.trace ++
        [.call (.pwmPeriod self.chip self.pin (pyRound (1 / new_frequency * 1000000000))),
         .call (.pwmDutyCycle self.chip self.pin
            (pyRound (self.duty_cycle_percent / 100 *
              ((pyRound (1 / new_frequency * 1000000000) : ℤ) : ℚ))))]) := by
  rcases w with ⟨s, tr⟩
  dsimp only at hscript
  subst hscript
  constructor
  · intro h0 hlt
    have hle : 1 / new_frequency * 1000000000 ≤ 1 / self.frequency * 1000000000 :=
      mul_le_mul_of_nonneg_right (one_div_le_one_div_of_le h0 (le_of_lt hlt)) (by norm_num)
    have hcond : ¬ (pyRound (1 / self.frequency * 1000000000) <
        pyRound (1 / new_frequency * 1000000000)) :=
      not_lt.mpr (pyRound_mono hle)
    simp only [one_div] at hcond
    simp [change_frequency, runSys, hcond]
  · intro h0 hlt hne
    have hle : 1 / self.frequency * 1000000000 ≤ 1 / new_frequency * 1000000000 :=
      mul_le_mul_of_nonneg_right (one_div_le_one_div_of_le h0 (le_of_lt hlt)) (by norm_num)
    have hcond : pyRound (1 / self.frequency * 1000000000) <
        pyRound (1 / new_frequency * 1000000000) :=
      lt_of_le_of_ne (pyRound_mono hle) (Ne.symm hne)
    simp only [one_div] at hcond
    simp [change_frequency, runSys, hcond]

/-- C1 (counterexample): the spec's own test vector — frequency 1000 Hz, duty
50 %, increasing to 2000 Hz — makes `change_frequency` write the duty cycle
(250000 ns) first and the new period (500000 ns) second, so the first Pin File
I/O write is not the period write the claim requires. -/
theorem C1_counterexample :
    (change_frequency ⟨0, 0, 1000, 50, false⟩ ⟨[], []⟩ 2000).2.2.trace =
      [.call (.pwmDutyCycle 0 0 250000), .call (.pwmPeriod 0 0 500000)] ∧
    (change_frequency ⟨0, 0, 1000, 50, false⟩ ⟨[], []⟩ 2000).2.2.trace.head? ≠
      some (.call (.pwmPeriod 0 0 500000)) := by
  have h1 : pyRound ((1:ℚ) / 2000 * 1000000000) = 500000 := by norm_num [pyRound]
  have h3 : pyRound ((1:ℚ) / 1000 * 1000000000) = 1000000 := by norm_num [pyRound]
  simp only [one_div] at h1 h3
  constructor
  · simp [change_frequency, runSys, h1, h3]
    norm_num [pyRound]
  · simp [change_frequency, runSys, h1, h3]

/-- C1 (witness): the amended order theorem evaluated on the spec's test
vector, in both directions (1000 Hz → 2000 Hz and 2000 Hz → 1000 Hz). -/
theorem C1_witness :
    (change_frequency ⟨0, 0, 1000, 50, false⟩ ⟨[], []⟩ 2000).2.2.trace =
      [.call (.pwmDutyCycle 0 0 250000), .call (.pwmPeriod 0 0 500000)] ∧
    (change_frequency ⟨0, 0, 2000, 50, false⟩ ⟨[], []⟩ 1000).2.2.trace =
      [.call (.pwmPeriod 0 0 1000000), .call (.pwmDutyCycle 0 0 500000)] := by
  have hA := (C1_change_frequency_write_order ⟨0, 0, 1000, 50, false⟩ ⟨[], []⟩ 2000 rfl).1
      (by norm_num) (by norm_num)
  have hB := (C1_change_frequency_write_order ⟨0, 0, 2000, 50, false⟩ ⟨[], []⟩ 1000 rfl).2
      (by norm_num) (by norm_num) (by norm_num [pyRound])
  constructor
  · rw [hA]
    norm_num [pyRound]
  · rw [hB]
    norm_num [pyRound]

theorem dictFind_append_self {β : Type} (l : List (ℤ × β)) (k : ℤ) (v : β)
    (h : dictFind l k = none) : dictFind (l ++ [(k, v)]) k = some v := by
  induction l with
  | nil => simp [dictFind]
  | cons p rest ih =>
    rcases p with ⟨a, b⟩
    simp only [dictFind] at h
    by_cases hk : k = a
    · rw [if_pos hk] at h
      exact absurd h (by simp)
    · rw [if_neg hk] at h
      simp only [List.cons_append, dictFind, if_neg hk]
      exact ih h

theorem dictFind_eq_none_of_not_mem {β : Type} (l : List (ℤ × β)) (k : ℤ)
    (h : k ∉ l.map Prod.fst) : dictFind l k = none := by
  induction l with
  | nil => rfl
  | cons p rest ih =>
    rcases p with ⟨a, b⟩
    simp only [List.map_cons, List.mem_cons] at h
    push_neg at h
    simp only [dictFind, if_neg h.1]
    exact ih h.2

theorem dictDel_eq_self {β : Type} (l : List (ℤ × β)) (k : ℤ)
    (h : dictFind l k = none) : dictDel l k = l := by
  induction l with
  | nil => rfl
  | cons p rest ih =>
    rcases p with ⟨a, b⟩
    simp only [dictFind] at h
    by_cases hk : k = a
    · rw [if_pos hk] at h
      exact absurd h (by simp)
    · rw [if_neg hk] at h
      have ha : a ≠ k := fun hh => hk hh.symm
      simp only [dictDel, List.filter_cons, decide_eq_true_eq]
      rw [if_pos (by exact ha)]
      exact congrArg (List.cons (a, b)) (ih h)

theorem dictDel_cons_self {β : Type} (rest : List (ℤ × β)) (k : ℤ) (v : β)
    (h : dictFind rest k = none) : dictDel ((k, v) :: rest) k = rest := by
  simp only [dictDel, List.filter_cons, decide_eq_true_eq]
  rw [if_neg (by simp)]
  exact dictDel_eq_self rest k h

theorem dictFind_dictDel {β : Type} (l : List (ℤ × β)) (k : ℤ) :
    dictFind (dictDel l k) k = none := by
  induction l with
  | nil => rfl
  | cons p rest ih =>
    rcases p with ⟨a, b⟩
    by_cases hk : a = k
    · simp only [dictDel, List.filter_cons, decide_eq_true_eq]
      rw [if_neg (by simp [hk])]
      exact ih
    · simp only [dictDel, List.filter_cons, decide_eq_true_eq]
      rw [if_pos (by exact hk)]
      simp only [dictFind, if_neg (fun hh => hk hh.symm : k ≠ a)]
      exact ih

/-- C2 (amended): only the BOARD scheme is usable at translation time.  Under
any other accepted scheme — BCM, SUNXI, or a user-supplied custom mapping —
`get_gpio_pin` fails with an `AssertionError` regardless of the stored custom
table; under BOARD it returns the board table's pin, and fails with a
`KeyError` (the `UnknownChannel` failure) exactly when the channel is absent
from the board table. -/
theorem C2_translation_board_only (customMap : List (ℤ × ℤ)) (channel pin : ℤ) :
    (∀ m : Mode, m ≠ Mode.board →
      get_gpio_pin customMap (some m) channel = .error .assertionError) ∧
    (dictFind boardPinMap channel = some pin →
      get_gpio_pin customMap (some Mode.board) channel = .ok pin) ∧
    (dictFind boardPinMap channel = none →
      get_gpio_pin customMap (some Mode.board) channel = .error (.keyError channel)) := by
  refine ⟨fun m hm => ?_, fun h => ?_, fun h => ?_⟩
  · simp [get_gpio_pin, hm]
  · simp [get_gpio_pin, h]
  · simp [get_gpio_pin, h]

/-- C2 (counterexample): selecting the user-supplied custom mapping {1: 42}
is accepted (`setmode` stores the table and activates CUSTOM), yet
translating channel 1 afterwards fails with an `AssertionError` — not with
the `UnknownChannel`-style `KeyError`, and not yielding kernel pin 42 —
because `get_gpio_pin` asserts `mode in [BOARD]`. -/
theorem C2_counterexample :
    (setmode initState (.customDict [(1, 42)])).mode = some Mode.custom ∧
    (setmode initState (.customDict [(1, 42)])).customMap = [(1, 42)] ∧
    get_gpio_pin (setmode initState (.customDict [(1, 42)])).customMap
      (setmode initState (.customDict [(1, 42)])).mode 1 = .error .assertionError ∧
    get_gpio_pin (setmode initState (.customDict [(1, 42)])).customMap
      (setmode initState (.customDict [(1, 42)])).mode 1 ≠ .ok 42 := by
  refine ⟨rfl, rfl, rfl, ?_⟩
  simp [get_gpio_pin, setmode, initState]

/-- C2 (witness): the amended translation theorem at concrete inputs — the
custom scheme with mapping {1: 42} fails by assertion, BOARD translates
channel 3 to pin 47, and BOARD channel 4 (absent from the table) raises
`KeyError`. -/
theorem C2_witness :
    get_gpio_pin [(1, 42)] (some Mode.custom) 1 = .error .assertionError ∧
    get_gpio_pin [] (some Mode.board) 3 = .ok 47 ∧
    get_gpio_pin [] (some Mode.board) 4 = .error (.keyError 4) :=
  ⟨(C2_translation_board_only [(1, 42)] 1 0).1 Mode.custom (by decide),
   (C2_translation_board_only [] 3 47).2.1 (by decide),
   (C2_translation_board_only [] 4 0).2.2 (by decide)⟩

/-- C3 (code bug): `output([11, 12], (HIGH, LOW))` with both channels
configured as outputs under BOARD does not set channel 11 HIGH and channel
12 LOW — the list branch forwards the whole tuple `(HIGH, LOW)` unchanged as
the written value for BOTH kernel pins (138 and 29), contradicting the
source's own docstring ("sets first HIGH and second LOW"). -/
theorem C3_output_list_forwards_whole_state :
    (output ⟨some Mode.board, true, [(11, Direction.output), (12, Direction.output)], [], []⟩
        ⟨[], []⟩ (.chanList [11, 12]) (.tuple [1, 0])).1 = .ok () ∧
    (output ⟨some Mode.board, true, [(11, Direction.output), (12, Direction.output)], [], []⟩
        ⟨[], []⟩ (.chanList [11, 12]) (.tuple [1, 0])).2.trace =
      [.call (.writeValue 138 (.tuple [1, 0])), .call (.writeValue 29 (.tuple [1, 0]))] ∧
    (output ⟨some Mode.board, true, [(11, Direction.output), (12, Direction.output)], [], []⟩
        ⟨[], []⟩ (.chanList [11, 12]) (.tuple [1, 0])).2.trace ≠
      [.call (.writeValue 138 HIGH), .call (.writeValue 29 LOW)] := by
  refine ⟨rfl, rfl, ?_⟩
  decide

/-- C8 (code bug): `pwm_polarity` on a PWM object constructed with
`invert_polarity = False` issues disable / polarity-write / enable in order,
but writes `invert=True` on BOTH the first and the second successive call —
the stored flag is never toggled — so two calls leave the active polarity
inverted instead of restoring the original. -/
theorem C8_pwm_polarity_never_toggles :
    (pwm_polarity ⟨0, 0, 1000, 50, false⟩ ⟨[], []⟩).2.2.trace =
      [.call (.pwmDisable 0 0), .call (.pwmPolarity 0 0 true), .call (.pwmEnable 0 0)] ∧
    (pwm_polarity ⟨0, 0, 1000, 50, false⟩ ⟨[], []⟩).2.1 = ⟨0, 0, 1000, 50, false⟩ ∧
    (pwm_polarity (pwm_polarity ⟨0, 0, 1000, 50, false⟩ ⟨[], []⟩).2.1
        (pwm_polarity ⟨0, 0, 1000, 50, false⟩ ⟨[], []⟩).2.2).2.2.trace =
      [.call (.pwmDisable 0 0), .call (.pwmPolarity 0 0 true), .call (.pwmEnable 0 0),
       .call (.pwmDisable 0 0), .call (.pwmPolarity 0 0 true), .call (.pwmEnable 0 0)] := by
  exact ⟨rfl, rfl, rfl⟩

/-- C9: `input` succeeds on any configured channel regardless of its recorded
direction — in particular on an OUT-configured channel — because its guard
`_check_configured(channel)` demands no direction; the scripted sysfs value
is returned. -/
theorem C9_input_ignores_direction (st : GpioState) (tr : List Ev) (channel pin : ℤ)
    (d : Direction) (v : Bool)
    (hconf : dictFind st.exports channel = some d)
    (htrans : get_gpio_pin st.customMap st.mode channel = .ok pin) :
    (input st ⟨[.ok v], tr⟩ channel).1 = .ok v := by
  simp [input, _check_configured, hconf, htrans, runSys]

/-- C9 (witness): reading back channel 3 configured as an output under BOARD
succeeds and returns the scripted value. -/
theorem C9_witness :
    (input ⟨some Mode.board, true, [(3, Direction.output)], [], []⟩ ⟨[.ok true], []⟩ 3).1 =
      .ok true :=
  C9_input_ignores_direction ⟨some Mode.board, true, [(3, Direction.output)], [], []⟩ []
    3 47 .output true rfl rfl

theorem setupScalar_ok (st : GpioState) (tr : List Ev) (ch pin : ℤ) (d : Direction)
    (hnot : dictFind st.exports ch = none)
    (htrans : get_gpio_pin st.customMap st.mode ch = .ok pin) :
    setupScalar st ⟨[], tr⟩ ch d none =
      (.ok (), { st with exports := st.exports ++ [(ch, d)] },
        ⟨[], tr ++ [.call (.exportPin pin), .call (.setDirection pin d)]⟩) := by
  cases d <;> simp [setupScalar, hnot, htrans, setupExport, runSys]

theorem setup_single_ok (st : GpioState) (tr : List Ev) (ch pin : ℤ) (d : Direction)
    (hmode : st.mode ≠ none)
    (htrans : get_gpio_pin st.customMap st.mode ch = .ok pin)
    (hnot : dictFind st.exports ch = none) :
    setup st ⟨[], tr⟩ (.single ch) d none none =
      (.ok (), { st with exports := st.exports ++ [(ch, d)] },
        ⟨[], tr ++ [.call (.exportPin pin), .call (.setDirection pin d)]⟩) := by
  have h := setupScalar_ok st tr ch pin d hnot htrans
  simp [setup, hmode, h]

theorem cleanupScalar_ok (st : GpioState) (tr : List Ev) (ch pin : ℤ) (d : Direction)
    (hconf : dictFind st.exports ch = some d)
    (htrans : get_gpio_pin st.customMap st.mode ch = .ok pin) :
    cleanupScalar st ⟨[], tr⟩ ch =
      (.ok (), { st with watchers := st.watchers.erase pin,
                         exports := dictDel st.exports ch },
        ⟨[], tr ++ [.call (.eventCleanup pin), .call (.unexportPin pin)]⟩) := by
  simp [cleanupScalar, _check_configured, hconf, htrans, runSys]

/-- C4: with a scheme active and channel `ch` translatable and unconfigured,
`configure(ch, d)` succeeds and records the Export Record; a second
`configure(ch, d)` without teardown fails with `AlreadyConfigured`; a
`teardown(ch)` succeeds; and a further `configure(ch, d)` succeeds again
(external calls all succeeding, i.e. an empty script). -/
theorem C4_reconfigure_cycle (st : GpioState) (tr : List Ev) (ch pin : ℤ) (d : Direction)
    (hmode : st.mode ≠ none)
    (htrans : get_gpio_pin st.customMap st.mode ch = .ok pin)
    (hnot : dictFind st.exports ch = none) :
    setup st ⟨[], tr⟩ (.single ch) d none none =
      (.ok (), { st with exports := st.exports ++ [(ch, d)] },
        ⟨[], tr ++ [.call (.exportPin pin), .call (.setDirection pin d)]⟩) ∧
    (setup { st with exports := st.exports ++ [(ch, d)] }
        ⟨[], tr ++ [.call (.exportPin pin), .call (.setDirection pin d)]⟩
        (.single ch) d none none).1 = .error (.runtimeAlreadyConfigured ch) ∧
    cleanup { st with exports := st.exports ++ [(ch, d)] }
        ⟨[], tr ++ [.call (.exportPin pin), .call (.setDirection pin d)]⟩
        (some (.single ch)) =
      (.ok (), { st with watchers := st.watchers.erase pin,
                         exports := dictDel (st.exports ++ [(ch, d)]) ch },
        ⟨[], tr ++ [.call (.exportPin pin), .call (.setDirection pin d),
                    .call (.eventCleanup pin), .call (.unexportPin pin)]⟩) ∧
    (setup { st with watchers := st.watchers.erase pin,
                     exports := dictDel (st.exports ++ [(ch, d)]) ch }
        ⟨[], tr ++ [.call (.exportPin pin), .call (.setDirection pin d),
                    .call (.eventCleanup pin), .call (.unexportPin pin)]⟩
        (.single ch) d none none).1 = .ok () := by
  have hfound : dictFind (st.exports ++ [(ch, d)]) ch = some d :=
    dictFind_append_self st.exports ch d hnot
  refine ⟨setup_single_ok st tr ch pin d hmode htrans hnot, ?_, ?_, ?_⟩
  · simp [setup, hmode, setupScalar, hfound]
  · have h := cleanupScalar_ok { st with exports := st.exports ++ [(ch, d)] }
        (tr ++ [.call (.exportPin pin), .call (.setDirection pin d)]) ch pin d hfound htrans
    simpa using h
  · have h := setup_single_ok
        { st with watchers := st.watchers.erase pin,
                  exports := dictDel (st.exports ++ [(ch, d)]) ch }
        (tr ++ [.call (.exportPin pin), .call (.setDirection pin d),
                .call (.eventCleanup pin), .call (.unexportPin pin)])
        ch pin d hmode htrans (dictFind_dictDel (st.exports ++ [(ch, d)]) ch)
    rw [h]

/-- C4 (witness): the cycle at the concrete state — BOARD scheme, channel 3
(kernel pin 47), direction IN: first configure succeeds, an immediate second
configure fails with `AlreadyConfigured`. -/
theorem C4_witness :
    (setup ⟨some Mode.board, true, [], [], []⟩ ⟨[], []⟩
        (.single 3) Direction.input none none).1 = .ok () ∧
    (setup ⟨some Mode.board, true, [(3, Direction.input)], [], []⟩
        ⟨[], [.call (.exportPin 47), .call (.setDirection 47 Direction.input)]⟩
        (.single 3) Direction.input none none).1 =
      .error (.runtimeAlreadyConfigured 3) ∧
    (setup ⟨some Mode.board, true, [], [], []⟩
        ⟨[], [.call (.exportPin 47), .call (.setDirection 47 Direction.input),
              .call (.eventCleanup 47), .call (.unexportPin 47)]⟩
        (.single 3) Direction.input none none).1 = .ok () := by
  have h := C4_reconfigure_cycle ⟨some Mode.board, true, [], [], []⟩ [] 3 47 Direction.input
      (by simp) rfl rfl
  exact ⟨by rw [h.1], h.2.1, h.2.2.2⟩

/-- C5: during configure, an errno-16 (resource busy) export failure leads to
a warning (exactly when warnings are enabled), a forced unexport and exactly
one export retry, after which the operation proceeds; an export failure with
any other errno propagates unchanged to the caller with no retry and no
registry change. -/
theorem C5_busy_retry (st : GpioState) (tr : List Ev) (ch pin : ℤ) (d : Direction) (errno : ℤ)
    (hmode : st.mode ≠ none)
    (htrans : get_gpio_pin st.customMap st.mode ch = .ok pin)
    (hnot : dictFind st.exports ch = none) :
    setup st ⟨[.err 16], tr⟩ (.single ch) d none none =
      (.ok (), { st with exports := st.exports ++ [(ch, d)] },
        ⟨[], tr ++ [.call (.exportPin pin)] ++
          (if st.gpioWarnings then [.warn (.channelInUse ch)] else []) ++
          [.call (.unexportPin pin), .call (.exportPin pin),
           .call (.setDirection pin d)]⟩) ∧
    (errno ≠ 16 →
      setup st ⟨[.err errno], tr⟩ (.single ch) d none none =
        (.error (.ioError (.exportPin pin) errno), st,
          ⟨[.err errno].tail, tr ++ [.call (.exportPin pin)]⟩)) := by
  constructor
  · cases hw : st.gpioWarnings <;> cases d <;>
      simp [setup, hmode, setupScalar, hnot, htrans, setupExport, runSys, emitWarn, hw]
  · intro hne
    cases d <;> simp [setup, hmode, setupScalar, hnot, htrans, setupExport, runSys, hne]

/-- C5 (witness): concrete runs — a busy export (errno 16) on channel 3 under
BOARD warns, force-unexports, retries once and succeeds; an errno-5 export
failure propagates with a single export call and no registry change. -/
theorem C5_witness :
    setup ⟨some Mode.board, true, [], [], []⟩ ⟨[.err 16], []⟩
        (.single 3) Direction.input none none =
      (.ok (), ⟨some Mode.board, true, [(3, Direction.input)], [], []⟩,
        ⟨[], [.call (.exportPin 47), .warn (.channelInUse 3), .call (.unexportPin 47),
              .call (.exportPin 47), .call (.setDirection 47 Direction.input)]⟩) ∧
    setup ⟨some Mode.board, true, [], [], []⟩ ⟨[.err 5], []⟩
        (.single 3) Direction.input none none =
      (.error (.ioError (.exportPin 47) 5), ⟨some Mode.board, true, [], [], []⟩,
        ⟨[], [.call (.exportPin 47)]⟩) := by
  have h := C5_busy_retry ⟨some Mode.board, true, [], [], []⟩ [] 3 47 Direction.input 5
      (by simp) rfl rfl
  exact ⟨h.1, h.2 (by decide)⟩

/-- C7 (amended): for either value `b` of the global warnings toggle, the
pull-up/down advisory in `setup`, the bouncetime advisories in
`add_event_detect` and `add_event_callback`, and the busy-retry advisory in
the GPIO configure path are each emitted exactly when `b` is enabled, and the
operation continues (succeeds) either way; the PWM constructor's busy
warning, however, ignores the toggle and is emitted even when warnings are
disabled (its operation also continuing). -/
theorem C7_warning_suppression (b : Bool) :
    (let r := setup ⟨some Mode.board, b, [], [], []⟩ ⟨[], []⟩
        (.single 3) Direction.input none (some (.int 1))
     r.1 = .ok () ∧ (Ev.warn .pullUpDown ∈ r.2.2.trace ↔ b = true)) ∧
    (let r := add_event_detect ⟨some Mode.board, b, [(3, Direction.input)], [], []⟩
        ⟨[], []⟩ 3 .rising (some 200)
     r.1 = .ok () ∧ (Ev.warn .bouncetime ∈ r.2.2.trace ↔ b = true)) ∧
    (let r := add_event_callback ⟨some Mode.board, b, [(3, Direction.input)], [], [47]⟩
        ⟨[], []⟩ 3 (some 200)
     r.1 = .ok () ∧ (Ev.warn .bouncetime ∈ r.2.2.trace ↔ b = true)) ∧
    (let r := setup ⟨some Mode.board, b, [], [], []⟩ ⟨[.err 16], []⟩
        (.single 3) Direction.input none none
     r.1 = .ok () ∧ (Ev.warn (.channelInUse 3) ∈ r.2.2.trace ↔ b = true)) ∧
    (let r := PWM_init b ⟨[.err 16], []⟩ 0 0 1000 50 false
     r.1 = .ok () ∧ Ev.warn (.pwmPinInUse 0) ∈ r.2.2.trace) := by
  cases b <;>
    exact ⟨⟨rfl, by decide⟩, ⟨rfl, by decide⟩, ⟨rfl, by decide⟩, ⟨rfl, by decide⟩,
           ⟨rfl, by decide⟩⟩

/-- C7 (counterexample): with the warnings toggle disabled (the constructor's
module-global `_gpio_warnings` argument is `false`), a busy (errno 16) PWM
export still emits the pin-in-use warning — the PWM constructor never
consults the toggle. -/
theorem C7_counterexample :
    (PWM_init false ⟨[.err 16], []⟩ 0 0 1000 50 false).2.2.trace =
      [.call (.pwmExport 0 0), .warn (.pwmPinInUse 0), .call (.pwmUnexport 0 0),
       .call (.pwmExport 0 0)] ∧
    Ev.warn (.pwmPinInUse 0) ∈ (PWM_init false ⟨[.err 16], []⟩ 0 0 1000 50 false).2.2.trace := by
  exact ⟨rfl, by decide⟩

theorem setupScalar_state_on_error (st : GpioState) (w : World) (ch : ℤ) (d : Direction)
    (initial : Option PyVal) (e : Err)
    (herr : (setupScalar st w ch d initial).1 = .error e)
    (hnotw : ∀ pin v errno, e ≠ .ioError (.writeValue pin v) errno) :
    (setupScalar st w ch d initial).2.1 = st := by
  by_cases hc : (dictFind st.exports ch).isSome
  · simp [setupScalar, hc]
  · rcases htr : get_gpio_pin st.customMap st.mode ch with e' | pin
    · simp [setupScalar, hc, htr]
    · rcases hexp : setupExport st.gpioWarnings w ch pin with ⟨re, w'⟩
      cases re with
      | error ee => simp [setupScalar, hc, htr, hexp]
      | ok u =>
        rcases hr5 : runSys (.setDirection pin d) w' with ⟨r5, w5⟩
        cases r5 with
        | err e5 => simp [setupScalar, hc, htr, hexp, hr5]
        | ok b5 =>
          cases d with
          | input => simp [setupScalar, hc, htr, hexp, hr5] at herr
          | output =>
            cases initial with
            | none => simp [setupScalar, hc, htr, hexp, hr5] at herr
            | some v =>
              rcases hr6 : runSys (.writeValue pin v) w5 with ⟨r6, w6⟩
              cases r6 with
              | ok b6 => simp [setupScalar, hc, htr, hexp, hr5, hr6] at herr
              | err e6 =>
                simp [setupScalar, hc, htr, hexp, hr5, hr6] at herr
                exact absurd herr.symm (hnotw pin v e6)

/-- C10: for a single (non-list) channel, whenever `setup` raises for any of
the claim's listed reasons — which are exactly the errors other than a
failure of the post-record initial-value write, i.e. no scheme selected
(`runtimeModeNotSet`), already configured, translation failure
(`assertionError` / `keyError`), or an I/O failure raised by the export
block or the direction write — the module state (in particular the Export
Record registry) is left exactly as it was before the call. -/
theorem C10_configure_error_atomicity (st : GpioState) (w : World) (ch : ℤ) (d : Direction)
    (initial pull_up_down : Option PyVal) (e : Err)
    (herr : (setup st w (.single ch) d initial pull_up_down).1 = .error e)
    (hnotw : ∀ pin v errno, e ≠ .ioError (.writeValue pin v) errno) :
    (setup st w (.single ch) d initial pull_up_down).2.1 = st := by
  by_cases hm : st.mode = none
  · simp [setup, hm]
  · have hred : setup st w (.single ch) d initial pull_up_down =
        setupScalar st
          (if pull_up_down.isSome then
            (if st.gpioWarnings then emitWarn .pullUpDown w else w) else w)
          ch d initial := by
      simp [setup, hm]
    rw [hred] at herr ⊢
    exact setupScalar_state_on_error st _ ch d initial e herr hnotw

/-- C10 (witness): configuring channel 3 without a scheme selected raises
(`NotInitialized`) and leaves the interpreter-start state untouched. -/
theorem C10_witness :
    (setup initState ⟨[], []⟩ (.single 3) Direction.input none none).2.1 = initState :=
  C10_configure_error_atomicity initState ⟨[], []⟩ 3 Direction.input none none
    .runtimeModeNotSet rfl (fun _ _ _ h => Err.noConfusion h)

theorem cleanupList_drain (ex : List (ℤ × Direction)) :
    ∀ (st : GpioState) (tr : List Ev), st.exports = ex → st.mode = some Mode.board →
      (ex.map Prod.fst).Nodup →
      (∀ p ∈ ex, (dictFind boardPinMap p.1).isSome = true) →
      (cleanupList st ⟨[], tr⟩ (ex.map Prod.fst)).1 = .ok () ∧
      (cleanupList st ⟨[], tr⟩ (ex.map Prod.fst)).2.1.exports = [] ∧
      (cleanupList st ⟨[], tr⟩ (ex.map Prod.fst)).2.1.mode = st.mode ∧
      (cleanupList st ⟨[], tr⟩ (ex.map Prod.fst)).2.1.gpioWarnings = st.gpioWarnings ∧
      (cleanupList st ⟨[], tr⟩ (ex.map Prod.fst)).2.1.customMap = st.customMap ∧
      (cleanupList st ⟨[], tr⟩ (ex.map Prod.fst)).2.2 =
        ⟨[], tr ++ (ex.map (fun p =>
          [Ev.call (.eventCleanup ((dictFind boardPinMap p.1).getD 0)),
           Ev.call (.unexportPin ((dictFind boardPinMap p.1).getD 0))])).flatten⟩ := by
  induction ex with
  | nil =>
    intro st tr hex _ _ _
    refine ⟨rfl, ?_, rfl, rfl, rfl, by simp [cleanupList]⟩
    simpa [cleanupList] using hex
  | cons p rest ih =>
    intro st tr hex hmode hnodup htrans
    rcases p with ⟨ch, d⟩
    have hkey : dictFind st.exports ch = some d := by rw [hex]; simp [dictFind]
    obtain ⟨pin, hpin⟩ : ∃ pin, dictFind boardPinMap ch = some pin := by
      have h1 := htrans (ch, d) (by simp)
      rcases h2 : dictFind boardPinMap ch with _ | pin
      · rw [h2] at h1; simp at h1
      · exact ⟨pin, rfl⟩
    have htr : get_gpio_pin st.customMap st.mode ch = .ok pin := by
      rw [hmode]; simp [get_gpio_pin, hpin]
    have hnodup2 : (rest.map Prod.fst).Nodup := by
      simp only [List.map_cons, List.nodup_cons] at hnodup
      exact hnodup.2
    have hnotmem : ch ∉ rest.map Prod.fst := by
      simp only [List.map_cons, List.nodup_cons] at hnodup
      exact hnodup.1
    have hdel : dictDel st.exports ch = rest := by
      rw [hex]
      exact dictDel_cons_self rest ch d (dictFind_eq_none_of_not_mem rest ch hnotmem)
    have hscalar := cleanupScalar_ok st tr ch pin d hkey htr
    have hres : cleanupList st ⟨[], tr⟩ (((ch, d) :: rest).map Prod.fst) =
        cleanupList
          { st with watchers := st.watchers.erase pin, exports := dictDel st.exports ch }
          ⟨[], tr ++ [.call (.eventCleanup pin), .call (.unexportPin pin)]⟩
          (rest.map Prod.fst) := by
      simp only [List.map_cons, cleanupList, hscalar]
    have ihh := ih
        { st with watchers := st.watchers.erase pin, exports := dictDel st.exports ch }
        (tr ++ [.call (.eventCleanup pin), .call (.unexportPin pin)])
        (by simpa using hdel) (by simpa using hmode) hnodup2
        (fun q hq => htrans q (List.mem_cons_of_mem _ hq))
    rw [hres]
    refine ⟨ihh.1, ihh.2.1, ihh.2.2.1, ihh.2.2.2.1, ihh.2.2.2.2.1, ?_⟩
    rw [ihh.2.2.2.2.2]
    simp [hpin]

/-- C6: `teardown()` with no argument (under the BOARD scheme, with every
configured channel translatable, unique registry keys and cooperating I/O)
removes every Export Record, issues the event-watcher cleanup and the
unexport for each configured channel's pin in registry order, resets the
warnings policy to enabled, clears the numbering scheme, and makes any
subsequent single-channel configure fail with the `NotInitialized` error. -/
theorem C6_cleanup_all (st : GpioState) (tr : List Ev)
    (hmode : st.mode = some Mode.board)
    (hnodup : (st.exports.map Prod.fst).Nodup)
    (htrans : ∀ p ∈ st.exports, (dictFind boardPinMap p.1).isSome = true) :
    (cleanup st ⟨[], tr⟩ none).1 = .ok () ∧
    (cleanup st ⟨[], tr⟩ none).2.1.exports = [] ∧
    (cleanup st ⟨[], tr⟩ none).2.1.gpioWarnings = true ∧
    (cleanup st ⟨[], tr⟩ none).2.1.mode = none ∧
    (cleanup st ⟨[], tr⟩ none).2.2.trace =
      tr ++ (st.exports.map (fun p =>
        [Ev.call (.eventCleanup ((dictFind boardPinMap p.1).getD 0)),
         Ev.call (.unexportPin ((dictFind boardPinMap p.1).getD 0))])).flatten ∧
    (∀ (ch' : ℤ) (d' : Direction) (initial pud : Option PyVal) (w' : World),
      (setup (cleanup st ⟨[], tr⟩ none).2.1 w' (.single ch') d' initial pud).1 =
        .error .runtimeModeNotSet) := by
  have hdrain := cleanupList_drain st.exports st tr rfl hmode hnodup htrans
  rcases hres : cleanupList st ⟨[], tr⟩ (st.exports.map Prod.fst) with ⟨r, st2, w2⟩
  rw [hres] at hdrain
  obtain ⟨h1, h2, h3, h4, h5, h6⟩ := hdrain
  have hr : r = Except.ok () := h1
  subst hr
  have hcl : cleanup st ⟨[], tr⟩ none =
      (.ok (), { setwarnings st2 true with mode := none }, w2) := by
    simp only [cleanup, hres]
  rw [hcl]
  refine ⟨rfl, ?_, rfl, rfl, ?_, ?_⟩
  · exact h2
  · rw [h6]
  · intro ch' d' initial pud w'
    simp [setup]

/-- C6 (witness): a concrete teardown — BOARD scheme, warnings previously
disabled, channels 3 (IN, pin 47) and 5 (OUT, pin 46) configured: both
records are removed with their event-cleanup/unexport call pairs, warnings
are re-enabled, the scheme is cleared, and reconfiguring channel 3 fails
with the mode-not-set error. -/
theorem C6_witness :
    (cleanup ⟨some Mode.board, false, [(3, Direction.input), (5, Direction.output)], [], []⟩
        ⟨[], []⟩ none).1 = .ok () ∧
    (cleanup ⟨some Mode.board, false, [(3, Direction.input), (5, Direction.output)], [], []⟩
        ⟨[], []⟩ none).2.1.exports = [] ∧
    (cleanup ⟨some Mode.board, false, [(3, Direction.input), (5, Direction.output)], [], []⟩
        ⟨[], []⟩ none).2.1.gpioWarnings = true ∧
    (cleanup ⟨some Mode.board, false, [(3, Direction.input), (5, Direction.output)], [], []⟩
        ⟨[], []⟩ none).2.1.mode = none ∧
    (cleanup ⟨some Mode.board, false, [(3, Direction.input), (5, Direction.output)], [], []⟩
        ⟨[], []⟩ none).2.2.trace =
      [.call (.eventCleanup 47), .call (.unexportPin 47),
       .call (.eventCleanup 46), .call (.unexportPin 46)] ∧
    (setup (cleanup ⟨some Mode.board, false,
          [(3, Direction.input), (5, Direction.output)], [], []⟩ ⟨[], []⟩ none).2.1
        ⟨[], []⟩ (.single 3) Direction.input none none).1 = .error .runtimeModeNotSet := by
  have h := C6_cleanup_all
      ⟨some Mode.board, false, [(3, Direction.input), (5, Direction.output)], [], []⟩ []
      rfl (by decide) (by decide)
  exact ⟨h.1, h.2.1, h.2.2.1, h.2.2.2.1, by rw [h.2.2.2.2.1]; rfl,
         h.2.2.2.2.2 3 Direction.input none none ⟨[], []⟩⟩

end OPiGPIO
